import Mathlib

/-!
Verification of SimpleTuner helper modules against their specification.

Shallow embedding of:
- `helpers/data_backend/aws.py` (`S3DataBackend`)
- `helpers/publishing/huggingface.py` (`HubManager`)
- `helpers/legacy/sd_files.py` (`save_model_hook` / `load_model_hook`)
-/

namespace Aws

/-- Python `str.split(sep)` for a single-character separator, on the
character list of the string.  Mirrors CPython semantics:
`"".split("/") = [""]`, `"a/b".split("/") = ["a","b"]`,
`"/".split("/") = ["",""]`.  The result is always non-empty. -/
def pySplitChar (sep : Char) : List Char → List (List Char)
  | [] => [[]]
  | c :: cs =>
    let rest := pySplitChar sep cs
    if c = sep then [] :: rest
    else
      match rest with
      | [] => [[c]]
      | p :: ps => (c :: p) :: ps

/-- `S3DataBackend._convert_path_to_key` (aws.py line 134):
`return path.split("/")[-1]` — the final `/`-delimited segment. -/
def _convert_path_to_key (path : String) : String :=
  String.mk ((pySplitChar '/' path.data).getLastD [])

/-- Bytes sent to the S3 client, as a list of byte values. -/
abbrev ByteSeq := List Nat

/-- A Python value passed as the body of a write: either `str` or `bytes`. -/
inductive PyData
  | str (s : String)
  | bytes (b : ByteSeq)

/-- Python `str.encode("utf-8")`. -/
def encodeUtf8 (s : String) : ByteSeq :=
  s.toUTF8.toList.map (fun b => b.toNat)

/-- The body conversion in `write_batch`'s `upload_to_s3` (aws.py line 176):
a string payload is utf-8 encoded, bytes pass through. -/
def toBody : PyData → ByteSeq
  | .str s => encodeUtf8 s
  | .bytes b => b

/-- One request issued to the boto3 S3 client. -/
inductive S3Request
  | headObject (bucket key : String)
  | getObject (bucket key : String)
  | putObject (bucket key : String) (body : ByteSeq)
  | deleteObject (bucket key : String)

/-- The remote key carried by a request. -/
def S3Request.key : S3Request → String
  | .headObject _ k => k
  | .getObject _ k => k
  | .putObject _ k _ => k
  | .deleteObject _ k => k

/-- The head_object request issued by `S3DataBackend.exists` (aws.py line 58):
the key is `self._convert_path_to_key(str(s3_key))`. -/
def exists_request (bucket s3_key : String) : S3Request :=
  .headObject bucket (_convert_path_to_key s3_key)

/-- The get_object request issued by `S3DataBackend.read` (aws.py line 67). -/
def read_request (bucket s3_key : String) : S3Request :=
  .getObject bucket (_convert_path_to_key s3_key)

/-- The put_object request issued by `S3DataBackend.write` (aws.py line 78). -/
def write_request (bucket s3_key : String) (data : ByteSeq) : S3Request :=
  .putObject bucket (_convert_path_to_key s3_key) data

/-- The delete_object request issued by `S3DataBackend.delete` (aws.py line 86). -/
def delete_request (bucket s3_key : String) : S3Request :=
  .deleteObject bucket (_convert_path_to_key s3_key)

/-- The put_object requests issued by `S3DataBackend.write_batch`
(aws.py lines 170-182): each `(s3_key, data)` pair is dispatched to
`upload_to_s3`, which sends `Key=s3_key` UNCHANGED (no
`_convert_path_to_key`), with string payloads utf-8 encoded.
`executor.map` pairs the two sequences up to the shorter one. -/
def write_batch_requests (bucket : String) (s3_keys : List String)
    (data_list : List PyData) : List S3Request :=
  (s3_keys.zip data_list).map (fun kd => .putObject bucket kd.1 (toBody kd.2))

/-- An in-memory model of the S3 bucket contents: remote key to stored body. -/
structure S3Store where
  objects : String → Option ByteSeq

/-- A bucket holding no objects. -/
def emptyStore : S3Store := ⟨fun _ => none⟩

/-- `client.put_object` against the in-memory store. -/
def S3Store.putObject (st : S3Store) (key : String) (body : ByteSeq) : S3Store :=
  ⟨fun q => if q = key then some body else st.objects q⟩

/-- `client.head_object` against the in-memory store: raises (models as
`Except.error`) on an injected transient fault or when the key is absent,
returns metadata on success. -/
def S3Store.headObject (st : S3Store) (fault : Bool) (key : String) :
    Except String Unit :=
  if fault then Except.error "transient error"
  else if (st.objects key).isSome then Except.ok ()
  else Except.error "404 not found"

/-- `S3DataBackend.exists` (aws.py lines 55-63): calls head_object on the
normalized key inside `try`, with a bare `except:` that turns ANY error
into `False`. -/
def s3_exists (st : S3Store) (fault : Bool) (s3_key : String) : Bool :=
  match st.headObject fault (_convert_path_to_key s3_key) with
  | .ok _ => true
  | .error _ => false

/-- `S3DataBackend.write` (aws.py lines 76-82): put_object of the body as
given, under the normalized key. -/
def s3_write (st : S3Store) (s3_key : String) (data : ByteSeq) : S3Store :=
  st.putObject (_convert_path_to_key s3_key) data

end Aws

namespace Hub

/-- A message sent through the webhook handler by `HubManager`. -/
inductive HubMsg
  | uploadingModel
  | weightRetryError (attempt : Nat)
  | modelAvailable
  | validationRetryError (attempt : Nat)
deriving DecidableEq

/-- An opaque PIL image value. -/
abbrev PyImage := Nat

/-- The filename `f"image_{idx}_{sub_idx}.png"` built at
huggingface.py lines 165-169 and 177. -/
def mkImageName (idx subIdx : Nat) : String :=
  "image_" ++ toString idx ++ "_" ++ toString subIdx ++ ".png"

/-- The weight-upload retry loop of `HubManager.upload_model`
(huggingface.py lines 78-91): `attempt = 0; while attempt < 3:` with
`attempt += 1` first, the upload in a `try` with `break` on success, and
an `except` that sends a retry message when a webhook handler is present.
`uploadOk a` tells whether the upload body succeeds on attempt `a`
(`false` = it raised, and the exception is caught).  `fuel` encodes the
remaining iterations `3 - attempt` of the bounded loop.  Returns
(number of upload calls made, whether the loop ended in success,
webhook messages sent). -/
def weightRetryGo (uploadOk : Nat → Bool) (hasWebhook : Bool) :
    Nat → Nat → Nat × Bool × List HubMsg
  | _, 0 => (0, false, [])
  | attempt, fuel + 1 =>
    let a := attempt + 1
    if uploadOk a then (1, true, [])
    else
      let rest := weightRetryGo uploadOk hasWebhook a fuel
      (rest.1 + 1, rest.2.1,
        (if hasWebhook then [HubMsg.weightRetryError a] else []) ++ rest.2.2)

/-- The per-image retry loop of `HubManager.upload_validation_images`
(huggingface.py lines 171-185): same bounded `while attempt < 3` shape as
the weight loop but with NO `break` after a successful `upload_file` —
the body runs on every iteration regardless of the outcome.  Returns
(number of upload_file calls made, webhook messages sent). -/
def validationRetryGo (uploadOk : Nat → Bool) (hasWebhook : Bool) :
    Nat → Nat → Nat × List HubMsg
  | _, 0 => (0, [])
  | attempt, fuel + 1 =>
    let a := attempt + 1
    let rest := validationRetryGo uploadOk hasWebhook a fuel
    if uploadOk a then (rest.1 + 1, rest.2)
    else
      (rest.1 + 1,
        (if hasWebhook then [HubMsg.validationRetryError a] else []) ++ rest.2)

/-- What `upload_validation_images` did for one image: the positional
filename it saved/uploaded under, how many `upload_file` calls it made,
and the webhook messages sent while doing so. -/
structure ImageUpload where
  filename : String
  uploadCalls : Nat
  msgs : List HubMsg
deriving DecidableEq

/-- The inner `for image in images` loop of `upload_validation_images`
(huggingface.py lines 164-187): the filename comes from the pair
`(idx, sub_idx)`, the retry loop runs on each image, and BOTH `idx` and
`sub_idx` are incremented once per image (lines 186-187).  `uploadOk`
gives the outcome per filename and attempt.  Returns the per-image
records and the value of `idx` after the group. -/
def imagesGo (uploadOk : String → Nat → Bool) (hasWebhook : Bool) :
    List PyImage → Nat → Nat → List ImageUpload × Nat
  | [], idx, _ => ([], idx)
  | _ :: rest, idx, subIdx =>
    let name := mkImageName idx subIdx
    let r := validationRetryGo (uploadOk name) hasWebhook 0 3
    let t := imagesGo uploadOk hasWebhook rest (idx + 1) (subIdx + 1)
    (⟨name, r.1, r.2⟩ :: t.1, t.2)

/-- The outer `for shortname, images in ...` loop of
`upload_validation_images` (huggingface.py lines 155-187): `sub_idx`
restarts at 0 for each group while `idx` carries across groups. -/
def groupsGo (uploadOk : String → Nat → Bool) (hasWebhook : Bool) :
    List (String × List PyImage) → Nat → List ImageUpload
  | [], _ => []
  | (_, images) :: rest, idx =>
    let r := imagesGo uploadOk hasWebhook images idx 0
    r.1 ++ groupsGo uploadOk hasWebhook rest r.2

/-- `HubManager.upload_validation_images` (huggingface.py lines 149-187)
on groups whose image collections are already lists.  `idx` starts at 0.
The guard `if validation_images and len(validation_images) > 0` changes
nothing on this trace: an empty input produces no uploads either way. -/
def upload_validation_images (uploadOk : String → Nat → Bool)
    (hasWebhook : Bool)
    (validation_images : List (String × List PyImage)) : List ImageUpload :=
  groupsGo uploadOk hasWebhook validation_images 0

/-- The observable trace of one `HubManager.upload_model` call. -/
structure UploadModelTrace where
  messages : List HubMsg
  weightUploadCalls : Nat
  weightUploadSucceeded : Bool
  validationUploads : List ImageUpload

/-- `HubManager.upload_model` (huggingface.py lines 57-95): an initial
webhook message when a handler is present; the model card is saved; the
validation images are uploaded with `webhook_handler=None`; the weight
retry loop runs (breaking on the first success, swallowing every
exception); finally the "Model is now available" message is sent whenever
a handler is present — the call falls through after the loop with no
re-raise and returns `None` regardless of the loop's outcome. -/
def upload_model (weightUploadOk : Nat → Bool)
    (imageUploadOk : String → Nat → Bool) (hasWebhook : Bool)
    (validation_images : List (String × List PyImage)) : UploadModelTrace :=
  let pre := if hasWebhook then [HubMsg.uploadingModel] else []
  let vals := upload_validation_images imageUploadOk false validation_images
  let w := weightRetryGo weightUploadOk hasWebhook 0 3
  let post := if hasWebhook then [HubMsg.modelAvailable] else []
  { messages := pre ++ w.2.2 ++ post
    weightUploadCalls := w.1
    weightUploadSucceeded := w.2.1
    validationUploads := vals }

/-- The scan loop of `HubManager.find_latest_checkpoint`
(huggingface.py lines 127-135) over the numeric suffixes of the
`checkpoint-*` directories: `highest_checkpoint_value` starts at 0 and
only a STRICTLY greater `int(parts[-1])` replaces the running best. -/
def findLatestGo : List Nat → Nat → Option Nat → Option Nat
  | [], _, best => best
  | v :: rest, bestVal, best =>
    if bestVal < v then findLatestGo rest v (some v)
    else findLatestGo rest bestVal best

/-- `HubManager.find_latest_checkpoint` (huggingface.py lines 123-137) on
the list of numeric suffixes `n` of the directories `checkpoint-<n>`
found by rglob; returns the suffix of `highest_checkpoint`, `none` for
Python `None`. -/
def find_latest_checkpoint (checkpoints : List Nat) : Option Nat :=
  if checkpoints.length > 0 then findLatestGo checkpoints 0 none else none

/-- What `HubManager.upload_latest_checkpoint` did. -/
inductive LatestUploadAction
  | uploaded (checkpointStep : Nat)
  | noop
deriving DecidableEq

/-- `HubManager.upload_latest_checkpoint` (huggingface.py lines 139-147):
`if checkpoint_path:` — a `Path` is truthy, so the guard passes exactly
when `find_latest_checkpoint` returned a path; otherwise nothing
happens. -/
def upload_latest_checkpoint (checkpoints : List Nat) : LatestUploadAction :=
  match find_latest_checkpoint checkpoints with
  | some p => .uploaded p
  | none => .noop

end Hub

namespace SdFiles

/-- The retention step of `save_model_hook` (sd_files.py lines 78-100) on
the numeric suffixes of the `os.listdir(args.output_dir)` entries that
start with `checkpoint`: they are sorted ascending by
`int(x.split("-")[1])`, and when `len(checkpoints) >= limit` the first
`len - limit + 1` (the oldest) are rmtree'd.  Returns the suffixes that
survive on disk. -/
def save_hook_retention (limit : Nat) (checkpoints : List Nat) : List Nat :=
  let sorted := List.insertionSort (· ≤ ·) checkpoints
  if sorted.length ≥ limit then sorted.drop (sorted.length - limit + 1)
  else checkpoints

/-- The checkpoint suffixes on disk after the retention step of
`save_model_hook` runs and the new checkpoint `checkpoint-<newStep>` is
saved. -/
def save_hook_after_new (limit : Nat) (checkpoints : List Nat)
    (newStep : Nat) : List Nat :=
  save_hook_retention limit checkpoints ++ [newStep]

/-- The class of a model popped by `load_model_hook`: the text encoder,
or anything else (loaded as the unet, sd_files.py lines 122-133). -/
inductive ModelKind
  | textEncoder
  | unet
deriving DecidableEq

/-- The checkpoint subfolder a popped model is loaded from
(sd_files.py lines 122-133). -/
def loadSubfolder : ModelKind → String
  | .textEncoder => "text_encoder"
  | .unet => "unet"

/-- The `while len(models) > 0` loop of `load_model_hook`
(sd_files.py lines 119-136): `models.pop()` removes the LAST element,
and each popped model is loaded from its subfolder. -/
def popLoadGo (models : List ModelKind) : List (ModelKind × String) :=
  match models with
  | [] => []
  | m :: ms =>
    let last := (m :: ms).getLastD m
    (last, loadSubfolder last) :: popLoadGo (m :: ms).dropLast
termination_by models.length
decreasing_by simp [List.length_dropLast]

/-- The observable outcome of one `load_model_hook` call. -/
structure LoadHookResult where
  restoredTrainingState : Bool
  warnedMissingState : Bool
  loads : List (ModelKind × String)
deriving DecidableEq

/-- `load_model_hook` (sd_files.py lines 111-136), parametrized by
whether `training_state.json` exists in the checkpoint directory.  When
it exists `StateTracker.load_training_state` restores the state; when it
does not, the hook only logs a warning.  The model-popping loop then runs
unconditionally.  The `Except` codomain records that a hook could raise;
this body has no raise on either branch, so the result is always
`Except.ok`. -/
def load_model_hook (hasTrainingStateFile : Bool) (models : List ModelKind) :
    Except String LoadHookResult :=
  Except.ok
    { restoredTrainingState := hasTrainingStateFile
      warnedMissingState := !hasTrainingStateFile
      loads := popLoadGo models }

end SdFiles

namespace Aws

theorem pySplitChar_ne_nil (sep : Char) (l : List Char) : pySplitChar sep l ≠ [] := by
  cases l with
  | nil => simp [pySplitChar]
  | cons c cs =>
    simp only [pySplitChar]
    split
    · simp
    · split <;> simp

/-- The last segment produced by `pySplitChar` never contains the separator. -/
theorem sep_not_mem_getLastD_pySplitChar (sep : Char) (l : List Char) :
    sep ∉ (pySplitChar sep l).getLastD [] := by
  induction l with
  | nil => simp [pySplitChar]
  | cons c cs ih =>
    simp only [pySplitChar]
    split
    · rwa [List.getLastD_cons]
    · rename_i hc
      cases h : pySplitChar sep cs with
      | nil => exact absurd h (pySplitChar_ne_nil sep cs)
      | cons p ps =>
        rw [h] at ih
        cases ps with
        | nil =>
          simp only [List.getLastD_cons, List.getLastD_nil] at ih ⊢
          simp only [List.mem_cons, not_or]
          exact ⟨fun he => hc he.symm, ih⟩
        | cons q qs =>
          simp only [List.getLastD_cons] at ih ⊢
          exact ih

/-- If the separator does not occur in the list, `pySplitChar` returns the
singleton list containing the input. -/
theorem pySplitChar_eq_singleton_of_not_mem (sep : Char) (l : List Char)
    (h : sep ∉ l) : pySplitChar sep l = [l] := by
  induction l with
  | nil => rfl
  | cons c cs ih =>
    simp only [List.mem_cons, not_or] at h
    have hcs : ¬(c = sep) := fun hc => h.1 hc.symm
    simp only [pySplitChar, if_neg hcs, ih h.2]

/-- C8: key normalization is idempotent — for every string `k`,
`_convert_path_to_key (_convert_path_to_key k) = _convert_path_to_key k` —
and `_convert_path_to_key "a/b/c.png" = "c.png"`. -/
theorem C8_key_normalization_idempotent (k : String) :
    _convert_path_to_key (_convert_path_to_key k) = _convert_path_to_key k ∧
    _convert_path_to_key "a/b/c.png" = "c.png" := by
  refine ⟨?_, rfl⟩
  unfold _convert_path_to_key
  rw [show (String.mk ((pySplitChar '/' k.data).getLastD [])).data
        = (pySplitChar '/' k.data).getLastD [] from rfl]
  rw [pySplitChar_eq_singleton_of_not_mem '/' _
        (sep_not_mem_getLastD_pySplitChar '/' k.data)]
  simp only [List.getLastD_cons, List.getLastD_nil]

/-- C5 counterexample: `write_batch` does NOT reduce its keys to the final
`/`-delimited segment — the batch item with key `"a/b/c.png"` is sent to
the remote store under the key `"a/b/c.png"` itself, while the claimed
normalization would send `"c.png"`. -/
theorem C5_counterexample_batch_key_not_normalized :
    (write_batch_requests "bkt" ["a/b/c.png"] [PyData.bytes [1]]).map
        S3Request.key = ["a/b/c.png"] ∧
    _convert_path_to_key "a/b/c.png" = "c.png" ∧
    ("a/b/c.png" : String) ≠ "c.png" :=
  ⟨rfl, rfl, by decide⟩

/-- C5 amended: `exists`, `read`, `write` and `delete` each reduce the
input path to its final `/`-delimited segment before using it as the
remote key, but each item of `write_batch` sends its key to the remote
store unchanged. -/
theorem C5_amended_key_normalization (bucket k : String) (d : ByteSeq)
    (keys : List String) (ds : List PyData) (h : keys.length = ds.length) :
    (exists_request bucket k).key = _convert_path_to_key k ∧
    (read_request bucket k).key = _convert_path_to_key k ∧
    (write_request bucket k d).key = _convert_path_to_key k ∧
    (delete_request bucket k).key = _convert_path_to_key k ∧
    (write_batch_requests bucket keys ds).map S3Request.key = keys := by
  refine ⟨rfl, rfl, rfl, rfl, ?_⟩
  have hfst := List.map_fst_zip keys ds (le_of_eq h)
  calc (write_batch_requests bucket keys ds).map S3Request.key
      = (keys.zip ds).map Prod.fst := by
        simp [write_batch_requests, S3Request.key]
    _ = keys := hfst

/-- C5 amended, witness at a concrete input. -/
theorem C5_amended_key_normalization_witness :
    (exists_request "bkt" "a/b/c.png").key = _convert_path_to_key "a/b/c.png" ∧
    (read_request "bkt" "a/b/c.png").key = _convert_path_to_key "a/b/c.png" ∧
    (write_request "bkt" "a/b/c.png" [0]).key = _convert_path_to_key "a/b/c.png" ∧
    (delete_request "bkt" "a/b/c.png").key = _convert_path_to_key "a/b/c.png" ∧
    (write_batch_requests "bkt" ["x/y.png"] [PyData.str "p"]).map
        S3Request.key = ["x/y.png"] :=
  C5_amended_key_normalization "bkt" "a/b/c.png" [0] ["x/y.png"]
    [PyData.str "p"] rfl

/-- C7 counterexample: key normalization aliases distinct paths with equal
basenames — after writing only `"a/c.png"` into an empty store, `exists`
reports `true` for the never-written key `"b/c.png"`. -/
theorem C7_counterexample_alias_never_written_key :
    s3_exists (s3_write emptyStore "a/c.png" [7]) false "b/c.png" = true ∧
    ("b/c.png" : String) ≠ "a/c.png" :=
  ⟨rfl, by decide⟩

/-- C7 amended: `exists` returns `false` whenever the retrieval raises
(any error, including an injected transient fault), returns `false` for
any key whose NORMALIZED form has never been stored, and returns `true`
immediately after a successful `write` to that same key. -/
theorem C7_amended_existence_probing (st st2 : S3Store) (k k2 : String)
    (d : ByteSeq)
    (hnone : st.objects (_convert_path_to_key k) = none) :
    s3_exists st true k = false ∧
    s3_exists st false k = false ∧
    s3_exists (s3_write st2 k2 d) false k2 = true := by
  refine ⟨rfl, ?_, ?_⟩
  · simp [s3_exists, S3Store.headObject, hnone]
  · simp [s3_exists, s3_write, S3Store.headObject, S3Store.putObject]

/-- C7 amended, witness at a concrete input. -/
theorem C7_amended_existence_probing_witness :
    s3_exists emptyStore true "k.png" = false ∧
    s3_exists emptyStore false "k.png" = false ∧
    s3_exists (s3_write emptyStore "dir/x.png" [1]) false "dir/x.png" = true :=
  C7_amended_existence_probing emptyStore emptyStore "k.png" "dir/x.png"
    [1] rfl

end Aws

namespace Hub

/-- The validation retry loop runs its body — one `upload_file` call — on
every one of its `fuel` iterations, whatever the outcomes. -/
theorem validationRetryGo_calls (uploadOk : Nat → Bool) (w : Bool) :
    ∀ (attempt fuel : Nat), (validationRetryGo uploadOk w attempt fuel).1 = fuel := by
  intro attempt fuel
  induction fuel generalizing attempt with
  | zero => rfl
  | succ f ih =>
    simp only [validationRetryGo]
    split <;> simp [ih]

/-- Every record emitted by the inner image loop shows exactly 3 upload
calls. -/
theorem imagesGo_calls (uploadOk : String → Nat → Bool) (w : Bool) :
    ∀ (images : List PyImage) (idx subIdx : Nat) (e : ImageUpload),
      e ∈ (imagesGo uploadOk w images idx subIdx).1 → e.uploadCalls = 3 := by
  intro images
  induction images with
  | nil =>
    intro idx s e he
    simp [imagesGo] at he
  | cons i rest ih =>
    intro idx s e he
    simp only [imagesGo] at he
    rcases List.mem_cons.mp he with h1 | h2
    · subst h1
      exact validationRetryGo_calls _ _ 0 3
    · exact ih _ _ _ h2

/-- Every record emitted by the group loop shows exactly 3 upload calls. -/
theorem groupsGo_calls (uploadOk : String → Nat → Bool) (w : Bool) :
    ∀ (gs : List (String × List PyImage)) (idx : Nat) (e : ImageUpload),
      e ∈ groupsGo uploadOk w gs idx → e.uploadCalls = 3 := by
  intro gs
  induction gs with
  | nil =>
    intro idx e he
    simp [groupsGo] at he
  | cons g rest ih =>
    intro idx e he
    rcases g with ⟨shortname, images⟩
    simp only [groupsGo] at he
    rcases List.mem_append.mp he with h1 | h2
    · exact imagesGo_calls uploadOk w images idx 0 e h1
    · exact ih _ _ h2

/-- C2 counterexample: with an upload that succeeds on the first attempt,
`upload_validation_images` still makes 3 `upload_file` calls for the
image, not the claimed 1 — its retry loop has no `break` on success. -/
theorem C2_counterexample_no_break_on_success :
    (upload_validation_images (fun _ _ => true) false [("g", [0])]).map
        ImageUpload.uploadCalls = [3] ∧
    (upload_validation_images (fun _ _ => true) false [("g", [0])]).map
        ImageUpload.uploadCalls ≠ [1] :=
  ⟨rfl, by decide⟩

/-- C2 amended: every image processed by `upload_validation_images` gets
exactly 3 `upload_file` calls regardless of outcomes — the loop, unlike
the weight-upload loop of `upload_model`, never stops at a success. -/
theorem C2_amended_three_calls_per_image (uploadOk : String → Nat → Bool)
    (w : Bool) (groups : List (String × List PyImage)) (e : ImageUpload)
    (he : e ∈ upload_validation_images uploadOk w groups) :
    e.uploadCalls = 3 :=
  groupsGo_calls uploadOk w groups 0 e he

/-- C2 amended, witness at a concrete input. -/
theorem C2_amended_three_calls_per_image_witness :
    (⟨"image_0_0.png", 3, []⟩ : ImageUpload) ∈
        upload_validation_images (fun _ _ => true) false [("g", [0])] ∧
    (⟨"image_0_0.png", 3, []⟩ : ImageUpload).uploadCalls = 3 :=
  ⟨by decide,
    C2_amended_three_calls_per_image (fun _ _ => true) false [("g", [0])]
      ⟨"image_0_0.png", 3, []⟩ (by decide)⟩

/-- C3 counterexample: for two groups with 1 and 2 images the produced
filenames are NOT `image_0_0.png, image_1_0.png, image_2_0.png`: `idx`
is incremented for every image, not per group, so the last name is
`image_2_1.png`. -/
theorem C3_counterexample_positional_names :
    (upload_validation_images (fun _ _ => true) false
        [("a", [0]), ("b", [1, 2])]).map ImageUpload.filename
      ≠ ["image_0_0.png", "image_1_0.png", "image_2_0.png"] := by decide

/-- C3 amended: each image is written under
`image_{idx}_{sub_idx}.png` where `idx` counts images globally and
`sub_idx` counts within the group; for two groups with 1 and 2 images
the filenames are `image_0_0.png, image_1_0.png, image_2_1.png`. -/
theorem C3_amended_positional_names :
    (upload_validation_images (fun _ _ => true) false
        [("a", [0]), ("b", [1, 2])]).map ImageUpload.filename
      = ["image_0_0.png", "image_1_0.png", "image_2_1.png"] := by decide

/-- C4: in `upload_model`, a weight upload failing twice then succeeding
gets exactly 3 attempts and ends in success; a weight upload that always
fails gets exactly 3 attempts and the call ends normally — the
exceptions are all caught, nothing is re-raised and no failure status is
produced (the trace records the outcome only). -/
theorem C4_weight_upload_retry (u v : Nat → Bool) (w : Bool)
    (imgOk : String → Nat → Bool) (imgs : List (String × List PyImage))
    (hu1 : u 1 = false) (hu2 : u 2 = false) (hu3 : u 3 = true)
    (hv : ∀ a, v a = false) :
    ((upload_model u imgOk w imgs).weightUploadCalls = 3 ∧
      (upload_model u imgOk w imgs).weightUploadSucceeded = true) ∧
    ((upload_model v imgOk w imgs).weightUploadCalls = 3 ∧
      (upload_model v imgOk w imgs).weightUploadSucceeded = false) := by
  refine ⟨⟨?_, ?_⟩, ?_, ?_⟩ <;>
    simp [upload_model, weightRetryGo, hu1, hu2, hu3, hv]

/-- C4, witness at concrete upload outcomes. -/
theorem C4_weight_upload_retry_witness :
    ((upload_model (fun a => decide (a = 3)) (fun _ _ => true) true
        []).weightUploadCalls = 3 ∧
      (upload_model (fun a => decide (a = 3)) (fun _ _ => true) true
        []).weightUploadSucceeded = true) ∧
    ((upload_model (fun _ => false) (fun _ _ => true) true
        []).weightUploadCalls = 3 ∧
      (upload_model (fun _ => false) (fun _ _ => true) true
        []).weightUploadSucceeded = false) :=
  C4_weight_upload_retry (fun a => decide (a = 3)) (fun _ => false) true
    (fun _ _ => true) [] rfl rfl rfl (fun _ => rfl)

/-- C10: with a webhook handler present, `upload_model` always sends the
final "Model is now available" message — for every weight-upload
outcome, including the one where all 3 attempts raised. -/
theorem C10_success_message_unconditional (u : Nat → Bool)
    (imgOk : String → Nat → Bool) (imgs : List (String × List PyImage)) :
    HubMsg.modelAvailable ∈ (upload_model u imgOk true imgs).messages := by
  simp only [upload_model, if_true, List.mem_append, List.mem_singleton]
  exact Or.inr trivial

/-- Folding `max` from any base equals `max` of the base and the fold
from 0. -/
theorem foldr_max_eq (l : List Nat) (b : Nat) :
    l.foldr max b = max b (l.foldr max 0) := by
  induction l generalizing b with
  | nil => simp
  | cons x xs ih =>
    rw [List.foldr_cons, List.foldr_cons, ih b]
    omega

/-- Closed form of the `find_latest_checkpoint` scan loop: it upgrades
the running best only on a strictly greater value. -/
theorem findLatestGo_spec (l : List Nat) :
    ∀ (bv : Nat) (b : Option Nat),
      findLatestGo l bv b =
        if bv < l.foldr max bv then some (l.foldr max bv) else b := by
  induction l with
  | nil =>
    intro bv b
    simp [findLatestGo]
  | cons v rest ih =>
    intro bv b
    have e1 : rest.foldr max v = max v (rest.foldr max 0) := foldr_max_eq rest v
    have e2 : rest.foldr max bv = max bv (rest.foldr max 0) := foldr_max_eq rest bv
    simp only [findLatestGo, List.foldr_cons, e2]
    by_cases hv : bv < v
    · rw [if_pos hv, ih v (some v), e1]
      rw [if_pos (show bv < max v (max bv (rest.foldr max 0)) by omega)]
      split_ifs with h2
      · exact congrArg some (by omega)
      · exact congrArg some (by omega)
    · rw [if_neg hv, ih bv b, e2]
      by_cases h3 : bv < rest.foldr max 0
      · rw [if_pos (by omega), if_pos (by omega)]
        exact congrArg some (by omega)
      · rw [if_neg (by omega), if_neg (by omega)]

/-- C6 counterexample: over the non-empty checkpoint set containing only
`checkpoint-0`, `find_latest_checkpoint` returns `None` — not
`checkpoint-0`, the directory with the maximal suffix — and
`upload_latest_checkpoint` is a no-op although a checkpoint exists. -/
theorem C6_counterexample_checkpoint_zero :
    find_latest_checkpoint [0] = none ∧
    find_latest_checkpoint [0] ≠ some 0 ∧
    ([0] : List Nat) ≠ [] ∧
    upload_latest_checkpoint [0] = LatestUploadAction.noop :=
  ⟨rfl, by decide, by decide, rfl⟩

/-- C6 amended: `find_latest_checkpoint` returns the maximal numeric
suffix whenever some suffix is positive, and `None` when there is no
checkpoint or the only suffixes are 0; `upload_latest_checkpoint` is a
silent no-op exactly in those `None` cases. -/
theorem C6_amended_latest_checkpoint (cps : List Nat) :
    find_latest_checkpoint cps =
      (if 0 < cps.foldr max 0 then some (cps.foldr max 0) else none) ∧
    (upload_latest_checkpoint cps = LatestUploadAction.noop ↔
      cps.foldr max 0 = 0) := by
  have hspec : find_latest_checkpoint cps =
      (if 0 < cps.foldr max 0 then some (cps.foldr max 0) else none) := by
    unfold find_latest_checkpoint
    cases cps with
    | nil => simp
    | cons v rest =>
      rw [if_pos (by simp), findLatestGo_spec (v :: rest) 0 none]
  refine ⟨hspec, ?_⟩
  unfold upload_latest_checkpoint
  rw [hspec]
  by_cases h : 0 < cps.foldr max 0
  · rw [if_pos h]
    constructor
    · intro hc
      exact LatestUploadAction.noConfusion hc
    · intro h0
      omega
  · rw [if_neg h]
    constructor
    · intro _
      omega
    · intro _
      rfl

end Hub

namespace SdFiles

/-- Appending an element strictly above every element and sorting puts it
last. -/
theorem insertionSort_append_largest (cps : List Nat) (n : Nat)
    (hn : ∀ x ∈ cps, x < n) :
    List.insertionSort (· ≤ ·) (cps ++ [n]) =
      List.insertionSort (· ≤ ·) cps ++ [n] := by
  exact List.eq_of_perm_of_sorted
    ((List.perm_insertionSort _ _).trans
      ((List.perm_insertionSort (· ≤ ·) cps).symm.append_right [n]))
    (List.sorted_insertionSort _ _)
    (by
      refine List.pairwise_append.mpr
        ⟨List.sorted_insertionSort _ _, List.pairwise_singleton _ _, ?_⟩
      intro a ha b hb
      rw [List.mem_singleton] at hb
      subst hb
      exact le_of_lt (hn a ((List.mem_insertionSort (· ≤ ·)).mp ha)))

/-- C1: for distinct checkpoint suffixes and a positive limit `L`, running
the retention step of `save_model_hook` and then saving one new
checkpoint with a suffix above all existing ones leaves exactly
`min L (previous_count + 1)` checkpoints, and the survivors are exactly
the `min L (previous_count + 1)` most recent by numeric suffix (the top
slice of the numerically sorted full set). -/
theorem C1_checkpoint_retention (L : Nat) (cps : List Nat) (n : Nat)
    (hL : 0 < L) (hnd : cps.Nodup) (hn : ∀ x ∈ cps, x < n) :
    (save_hook_after_new L cps n).length = min L (cps.length + 1) ∧
    (save_hook_after_new L cps n).Perm
      ((List.insertionSort (· ≤ ·) (cps ++ [n])).drop
        (cps.length + 1 - min L (cps.length + 1))) := by
  have hs := insertionSort_append_largest cps n hn
  have hlen : (List.insertionSort (· ≤ ·) cps).length = cps.length :=
    List.length_insertionSort _ _
  unfold save_hook_after_new save_hook_retention
  by_cases h : (List.insertionSort (· ≤ ·) cps).length ≥ L
  · rw [if_pos h]
    have hm : L ≤ cps.length := by omega
    have hmin : min L (cps.length + 1) = L := by omega
    rw [hmin, hs, hlen]
    constructor
    · rw [List.length_append, List.length_drop]
      simp only [List.length_singleton]
      omega
    · rw [List.drop_append_of_le_length (by omega),
        show cps.length + 1 - L = cps.length - L + 1 from by omega]
  · rw [if_neg h]
    have hmin : min L (cps.length + 1) = cps.length + 1 := by omega
    rw [hmin, Nat.sub_self, List.drop_zero]
    constructor
    · rw [List.length_append]
      rfl
    · exact (List.perm_insertionSort _ _).symm

/-- C1, witness at a concrete input. -/
theorem C1_checkpoint_retention_witness :
    (save_hook_after_new 2 [3, 1, 2] 5).length =
      min 2 (([3, 1, 2] : List Nat).length + 1) ∧
    (save_hook_after_new 2 [3, 1, 2] 5).Perm
      ((List.insertionSort (· ≤ ·) ([3, 1, 2] ++ [5])).drop
        (([3, 1, 2] : List Nat).length + 1 -
          min 2 (([3, 1, 2] : List Nat).length + 1))) :=
  C1_checkpoint_retention 2 [3, 1, 2] 5 (by decide) (by decide) (by decide)

/-- Unfolding the pop loop on a list with its last element split off. -/
theorem popLoadGo_concat (l : List ModelKind) (x : ModelKind) :
    popLoadGo (l ++ [x]) = (x, loadSubfolder x) :: popLoadGo l := by
  cases l with
  | nil => simp [popLoadGo]
  | cons y ys =>
    rw [List.cons_append]
    simp only [popLoadGo]
    rw [show y :: (ys ++ [x]) = (y :: ys) ++ [x] from rfl,
      List.getLastD_concat, List.dropLast_concat]
    simp only [popLoadGo]

/-- The pop loop visits the models in reverse order. -/
theorem popLoadGo_reverse_map (models : List ModelKind) :
    popLoadGo models = models.reverse.map (fun m => (m, loadSubfolder m)) := by
  induction models using List.reverseRecOn with
  | nil => simp [popLoadGo]
  | append_singleton l x ih =>
    rw [popLoadGo_concat, ih, List.reverse_append]
    simp

/-- C9: a missing `training_state.json` is recoverable — the load hook
logs a warning, restores nothing, raises no exception, and still loads
every model (popped from the end of the list, each from its checkpoint
subfolder); when the file exists, the training state is restored and the
models load the same way. -/
theorem C9_missing_training_state_recoverable (models : List ModelKind) :
    load_model_hook false models =
      Except.ok
        { restoredTrainingState := false
          warnedMissingState := true
          loads := models.reverse.map (fun m => (m, loadSubfolder m)) } ∧
    load_model_hook true models =
      Except.ok
        { restoredTrainingState := true
          warnedMissingState := false
          loads := models.reverse.map (fun m => (m, loadSubfolder m)) } := by
  unfold load_model_hook
  rw [popLoadGo_reverse_map]
  exact ⟨rfl, rfl⟩

end SdFiles
